import Mathlib

/-!
Shallow embedding of `fetch.go` from nzwirelessmap-fetch: the pipeline
orchestrator `fetchInternal` and its helpers (`lastModifiedTime`,
`findPrismMdb`, `mdbToSqlite`, `querySqliteToCSV`, `csvToJSON`,
`objectExists`, `writeToGCS`).  External effects (HTTP, GCS, subprocesses,
temp files) are supplied by an explicit environment `Env`; the run result
records the outcome, the ordered list of successfully written blob keys,
the final store contents, and the staging-file lifecycle events.
-/

/-- A parsed timestamp (always GMT/UTC for HTTP `Last-Modified` headers). -/
structure DateTime where
  year : Nat
  month : Nat
  day : Nat
  hour : Nat
  minute : Nat
  second : Nat
deriving Repr, DecidableEq

/-- Value of a decimal digit character, as in Go's `getnum`. -/
def digit (c : Char) : Option Nat :=
  if c.isDigit then some (c.toNat - 48) else none

def twoDigits (a b : Char) : Option Nat := do
  let x ← digit a
  let y ← digit b
  pure (10 * x + y)

def fourDigits (a b c d : Char) : Option Nat := do
  let x ← digit a
  let y ← digit b
  let z ← digit c
  let w ← digit d
  pure (1000 * x + 100 * y + 10 * z + w)

/-- Go `time` month names, mapped to month numbers. -/
def monthNum (s : String) : Option Nat :=
  if s = "Jan" then some 1
  else if s = "Feb" then some 2
  else if s = "Mar" then some 3
  else if s = "Apr" then some 4
  else if s = "May" then some 5
  else if s = "Jun" then some 6
  else if s = "Jul" then some 7
  else if s = "Aug" then some 8
  else if s = "Sep" then some 9
  else if s = "Oct" then some 10
  else if s = "Nov" then some 11
  else if s = "Dec" then some 12
  else none

/-- Go `time` weekday abbreviations (the parsed weekday is not cross-checked
against the date, as in Go's `time.Parse`). -/
def weekdayNames : List String :=
  ["Mon", "Tue", "Wed", "Thu", "Fri", "Sat", "Sun"]

def isLeapYear (y : Nat) : Bool :=
  (y % 4 = 0 && y % 100 ≠ 0) || y % 400 = 0

def daysInMonth (y m : Nat) : Nat :=
  if m = 2 then (if isLeapYear y then 29 else 28)
  else if m = 4 ∨ m = 6 ∨ m = 9 ∨ m = 11 then 30
  else 31

/-- Parse of `http.TimeFormat` = `"Mon, 02 Jan 2006 15:04:05 GMT"`, as used by
`time.Parse(http.TimeFormat, lm)` in `lastModifiedTime`.  Fixed-width fields;
range checks as performed by Go's parser; result is in UTC. -/
def parseHTTPTime (s : String) : Option DateTime :=
  match s.data with
  | [w1, w2, w3, ',', ' ', d1, d2, ' ', m1, m2, m3, ' ',
     y1, y2, y3, y4, ' ', h1, h2, ':', n1, n2, ':', s1, s2, ' ', 'G', 'M', 'T'] => do
    guard (weekdayNames.contains (String.mk [w1, w2, w3]))
    let day ← twoDigits d1 d2
    let mon ← monthNum (String.mk [m1, m2, m3])
    let year ← fourDigits y1 y2 y3 y4
    let hour ← twoDigits h1 h2
    let minute ← twoDigits n1 n2
    let second ← twoDigits s1 s2
    guard (hour < 24)
    guard (minute < 60)
    guard (second < 60)
    guard (1 ≤ day)
    guard (day ≤ daysInMonth year mon)
    pure ⟨year, mon, day, hour, minute, second⟩
  | _ => none

def pad2 (n : Nat) : String :=
  if n < 10 then "0" ++ toString n else toString n

def pad4 (n : Nat) : String :=
  if n < 10 then "000" ++ toString n
  else if n < 100 then "00" ++ toString n
  else if n < 1000 then "0" ++ toString n
  else toString n

/-- Rendering of `t.Format(time.RFC3339)` for a UTC time: `YYYY-MM-DDTHH:MM:SSZ`. -/
def formatRFC3339 (t : DateTime) : String :=
  pad4 t.year ++ "-" ++ pad2 t.month ++ "-" ++ pad2 t.day ++ "T" ++
    pad2 t.hour ++ ":" ++ pad2 t.minute ++ ":" ++ pad2 t.second ++ "Z"

/-- Go's `%v` rendering of a `[]byte`: decimal values, space-separated, in
brackets — as produced by `fmt.Errorf("... output: %v", err, javaOutput)`. -/
def goFormatBytes (bs : List Nat) : String :=
  "[" ++ String.intercalate " " (bs.map toString) ++ "]"

/-- The HTTP response: `Last-Modified` header value (empty string when the
header is absent, as with Go's `Header.Get`) and the body bytes. -/
structure HttpResponse where
  lastModified : String
  body : List Nat
deriving Repr, DecidableEq

/-- An entry of the fetched zip archive, as seen by `findPrismMdb` (only the
full entry name matters). -/
structure ZipEntry where
  name : String
deriving Repr, DecidableEq

/-- Outcome of a subprocess run through `cmd.CombinedOutput()`: success flag,
the Go error string on failure (e.g. `"exit status 1"`), and the captured
combined stdout+stderr as raw bytes. -/
structure SubprocResult where
  ok : Bool
  errMsg : String
  output : List Nat
deriving Repr, DecidableEq

/-- Outcome of a subprocess run through `cmd.Run()` with wired stdin/stdout
and a `bytes.Buffer` stderr: success flag, Go error string, captured stderr
as a string, and the stdout contents. -/
structure StreamProcResult where
  ok : Bool
  errMsg : String
  stderr : String
  output : String
deriving Repr, DecidableEq

/-- Outcomes of all external effects of one `fetchInternal` run. -/
structure Env where
  /-- whether `storage.NewClient` succeeds. -/
  clientOk : Bool
  /-- the `http.Get` result; `none` means the request failed. -/
  resp : Option HttpResponse
  /-- the dedup `Attrs` call answers (either attrs or `ErrObjectNotExist`);
  `false` means a genuine backend error. -/
  attrsOk : Bool
  /-- whether `io.Copy(&zipTmp, resp.Body)` succeeds. -/
  bodyReadOk : Bool
  /-- keys whose GCS write fails in `writeToGCS`. -/
  writeFails : List String
  /-- the `zip.NewReader` result; `none` means the archive failed to open. -/
  zipEntries : Option (List ZipEntry)
  /-- whether `prismMDB.Open()` succeeds. -/
  mdbOpenOk : Bool
  /-- the `tempFile("prism.mdb")` result: the created file's name, or `none`. -/
  mdbTmpFile : Option String
  /-- whether `io.Copy(mdbTmp, mdbR)` succeeds. -/
  mdbCopyOk : Bool
  /-- the `tempFile("prism.sqlite3")` result. -/
  sqliteTmpFile : Option String
  /-- the `java -jar mdb-sqlite.jar` subprocess. -/
  javaResult : SubprocResult
  /-- the `sqlite3 ... "analyze main;"` subprocess. -/
  analyzeResult : SubprocResult
  /-- whether `os.Open("select_point_to_point_links.sql")` succeeds. -/
  sqlFileOk : Bool
  /-- the `sqlite3` extraction subprocess. -/
  selectResult : StreamProcResult
  /-- the `python3 csv2json2.py` subprocess. -/
  jsonResult : StreamProcResult
deriving Repr, DecidableEq

/-- The error taxonomy, one constructor per distinct return site of the Go
code; conversion errors carry the `fmt.Errorf` message built by the code. -/
inductive RunError where
  | clientError
  | fetchError
  | timestampError (header : String)
  | storeError (key : String)
  | bodyReadError
  | writeError (key : String)
  | zipOpenError
  | notFoundError (msg : String)
  | mdbOpenError
  | resourceError
  | mdbReadError
  | sqlFileError
  | conversionError (msg : String)
deriving Repr, DecidableEq

/-- Model of `lastModifiedTime`: parse the `Last-Modified` header with
`time.Parse(http.TimeFormat, lm)`. -/
def lastModifiedTime (resp : HttpResponse) : Option DateTime :=
  parseHTTPTime resp.lastModified

/-- Model of `findPrismMdb`: first archive entry whose full name is exactly
`"prism.mdb"`. -/
def findPrismMdb : List ZipEntry → Option ZipEntry
  | [] => none
  | f :: rest => if f.name = "prism.mdb" then some f else findPrismMdb rest

/-- Model of `objectExists`: the `Attrs` call answers existence, or errors. -/
def objectExists (env : Env) (store : List String) (key : String) :
    Except RunError Bool :=
  if env.attrsOk then .ok (store.contains key) else .error (.storeError key)

/-- Model of `writeToGCS` success for a key (the write either commits fully or fails
leaving nothing, per the GCS writer contract). -/
def writeToGCS (env : Env) (key : String) : Bool :=
  !(env.writeFails.contains key)

/-- Model of `mdbToSqlite`: run java mdb-sqlite, then the sqlite3 analyze pass; both
captured with `CombinedOutput` and their `[]byte` output formatted with `%v`.
Returns the error (if any) and the list of subprocesses actually invoked. -/
def mdbToSqlite (env : Env) : Option RunError × List String :=
  if env.javaResult.ok then
    if env.analyzeResult.ok then (none, ["java", "sqlite3-analyze"])
    else (some (.conversionError ("couldn't analyze db: " ++
        env.analyzeResult.errMsg ++ ", output: " ++
        goFormatBytes env.analyzeResult.output)), ["java", "sqlite3-analyze"])
  else (some (.conversionError ("couldn't read output from java: " ++
      env.javaResult.errMsg ++ ", output: " ++
      goFormatBytes env.javaResult.output)), ["java"])

/-- Model of `querySqliteToCSV`: open the SQL file, run sqlite3 with SQL on stdin and
CSV on stdout; stderr captured as a string.  Returns the CSV or the error,
and the subprocesses invoked. -/
def querySqliteToCSV (env : Env) : Except RunError String × List String :=
  if env.sqlFileOk then
    if env.selectResult.ok then (.ok env.selectResult.output, ["sqlite3-select"])
    else (.error (.conversionError ("couldn't select: " ++
        env.selectResult.errMsg ++ ", stderr: " ++
        env.selectResult.stderr)), ["sqlite3-select"])
  else (.error .sqlFileError, [])

/-- Model of `csvToJSON`: run python csv2json2.py with CSV on stdin and JSON on
stdout; stderr captured as a string. -/
def csvToJSON (env : Env) (_csv : String) : Except RunError String × List String :=
  if env.jsonResult.ok then (.ok env.jsonResult.output, ["python3-csv2json"])
  else (.error (.conversionError ("couldn't convert to json: " ++
      env.jsonResult.errMsg ++ ", stderr: " ++
      env.jsonResult.stderr)), ["python3-csv2json"])

/-- Outcome and ordered successful writes of the conversion/publish tail. -/
structure PubResult where
  outcome : Option RunError
  writes : List String
  procs : List String
deriving Repr, DecidableEq

/-- Lines 126–160 of `fetchInternal`: both staging files exist; convert mdb
to sqlite, extract CSV, publish CSV, convert to JSON, publish
`prism.json/latest` and then the timestamped `prism.json/` key. -/
def convertAndPublish (env : Env) (csvKey latestKey jsonKey : String) : PubResult :=
  match mdbToSqlite env with
  | (some e, ps) => ⟨some e, [], ps⟩
  | (none, ps) =>
    match querySqliteToCSV env with
    | (.error e, qs) => ⟨some e, [], ps ++ qs⟩
    | (.ok csv, qs) =>
      if writeToGCS env csvKey then
        match csvToJSON env csv with
        | (.error e, js) => ⟨some e, [csvKey], ps ++ qs ++ js⟩
        | (.ok _json, js) =>
          if writeToGCS env latestKey then
            if writeToGCS env jsonKey then
              ⟨none, [csvKey, latestKey, jsonKey], ps ++ qs ++ js⟩
            else ⟨some (.writeError jsonKey), [csvKey, latestKey], ps ++ qs ++ js⟩
          else ⟨some (.writeError latestKey), [csvKey], ps ++ qs ++ js⟩
      else ⟨some (.writeError csvKey), [], ps ++ qs⟩

/-- Result of the staging segment: outcome, writes, subprocesses, and the
staging files created, closed and removed (by the deferred cleanups). -/
structure StageResult where
  outcome : Option RunError
  writes : List String
  procs : List String
  created : List String
  closedFiles : List String
  removedFiles : List String
deriving Repr, DecidableEq

/-- Lines 89–160 of `fetchInternal`: locate `prism.mdb` in the archive, open
it, materialize it to a temp file, create the sqlite temp file, then run the
conversion/publish tail.  Deferred `Close`/`os.Remove` pairs fire on every
exit path after the corresponding temp file is created (LIFO). -/
def extractAndConvert (env : Env) (entries : List ZipEntry)
    (csvKey latestKey jsonKey : String) : StageResult :=
  match findPrismMdb entries with
  | none => ⟨some (.notFoundError "no prism.mdb found in prism.zip"), [], [], [], [], []⟩
  | some _f =>
    if env.mdbOpenOk then
      match env.mdbTmpFile with
      | none => ⟨some .resourceError, [], [], [], [], []⟩
      | some mdbName =>
        if env.mdbCopyOk then
          match env.sqliteTmpFile with
          | none => ⟨some .resourceError, [], [], [mdbName], [mdbName], [mdbName]⟩
          | some sqName =>
            let p := convertAndPublish env csvKey latestKey jsonKey
            ⟨p.outcome, p.writes, p.procs, [mdbName, sqName],
              [sqName, mdbName], [sqName, mdbName]⟩
        else ⟨some .mdbReadError, [], [], [mdbName], [mdbName], [mdbName]⟩
    else ⟨some .mdbOpenError, [], [], [], [], []⟩

/-- Full observable result of one `fetchInternal` run. -/
structure RunResult where
  /-- the outcome; `none` = the run returned nil (success). -/
  outcome : Option RunError
  /-- blob keys successfully written, in write order. -/
  writes : List String
  /-- final blob store contents. -/
  store : List String
  /-- whether the response body was read into the staging buffer. -/
  bodyRead : Bool
  /-- converter subprocesses invoked, in order. -/
  procs : List String
  /-- staging files created by `tempFile`. -/
  created : List String
  /-- staging files closed before return. -/
  closedFiles : List String
  /-- staging files deleted before return. -/
  removedFiles : List String
deriving Repr, DecidableEq

/-- Model of `fetchInternal`, lines 26–161 of fetch.go: create the storage client,
fetch the archive, parse the publication timestamp, dedup-check the
timestamped `prism.json/` key, read the body, publish the raw zip, open the
archive and run the staging segment. -/
def fetchInternal (env : Env) (store : List String) : RunResult :=
  if env.clientOk then
    match env.resp with
    | none => ⟨some .fetchError, [], store, false, [], [], [], []⟩
    | some resp =>
      match lastModifiedTime resp with
      | none => ⟨some (.timestampError resp.lastModified), [], store, false, [], [], [], []⟩
      | some t =>
        let tSuffix := formatRFC3339 t
        let latestKey := "prism.json/latest"
        let jsonKey := "prism.json/" ++ tSuffix
        let csvKey := "prism.csv/" ++ tSuffix
        let zipKey := "prism.zip/" ++ tSuffix
        match objectExists env store jsonKey with
        | .error e => ⟨some e, [], store, false, [], [], [], []⟩
        | .ok true => ⟨none, [], store, false, [], [], [], []⟩
        | .ok false =>
          if env.bodyReadOk then
            if writeToGCS env zipKey then
              match env.zipEntries with
              | none => ⟨some .zipOpenError, [zipKey], store ++ [zipKey], true, [], [], [], []⟩
              | some entries =>
                let s := extractAndConvert env entries csvKey latestKey jsonKey
                ⟨s.outcome, zipKey :: s.writes, store ++ [zipKey] ++ s.writes,
                  true, s.procs, s.created, s.closedFiles, s.removedFiles⟩
            else ⟨some (.writeError zipKey), [], store, true, [], [], [], []⟩
          else ⟨some .bodyReadError, [], store, true, [], [], [], []⟩
  else ⟨some .clientError, [], store, false, [], [], [], []⟩

/-! ## Concrete runs used by witnesses and counterexamples -/

/-- The spec's scenario response: `Last-Modified: Tue, 01 Jan 2030 00:00:00 GMT`. -/
def respJan2030 : HttpResponse := ⟨"Tue, 01 Jan 2030 00:00:00 GMT", [1, 2, 3]⟩

def okSub : SubprocResult := ⟨true, "", []⟩

def okStream : StreamProcResult := ⟨true, "", "", "data"⟩

/-- An environment in which every external effect succeeds. -/
def envFull : Env :=
  ⟨true, some respJan2030, true, true, [], some [⟨"prism.mdb"⟩], true,
    some "/tmp/prism.mdb123", true, some "/tmp/prism.sqlite3456",
    okSub, okSub, true, okStream, okStream⟩

/-- As `envFull` but the java mdb-sqlite converter exits non-zero with
combined output (stderr) `"corrupt header"`. -/
def envJavaCorrupt : Env :=
  { envFull with javaResult :=
      ⟨false, "exit status 1", [99, 111, 114, 114, 117, 112, 116, 32, 104, 101, 97, 100, 101, 114]⟩ }

/-- As `envFull` but the write of the timestamped `prism.json/` key fails. -/
def envJsonWriteFail : Env :=
  { envFull with writeFails := ["prism.json/2030-01-01T00:00:00Z"] }

/-- The conversion-error message `mdbToSqlite` builds in `envJavaCorrupt`. -/
def javaCorruptMsg : String :=
  "couldn't read output from java: exit status 1, output: [99 111 114 114 117 112 116 32 104 101 97 100 101 114]"

/-- Key `a` is written strictly before key `b` in the ordered write list `l`. -/
def writtenBefore (l : List String) (a b : String) : Prop :=
  a ∈ l ∧ b ∈ l ∧ l.indexOf a < l.indexOf b

/-! ## Helper lemmas about the pipeline segments -/

theorem convertAndPublish_writes_le (env : Env) (ck lk jk : String) :
    (convertAndPublish env ck lk jk).writes <+: [ck, lk, jk] := by
  unfold convertAndPublish
  repeat' split
  all_goals exact ⟨_, rfl⟩

theorem convertAndPublish_success (env : Env) (ck lk jk : String)
    (h : (convertAndPublish env ck lk jk).outcome = none) :
    (convertAndPublish env ck lk jk).writes = [ck, lk, jk] := by
  unfold convertAndPublish at h ⊢
  repeat' split at h
  all_goals simp_all

theorem extractAndConvert_writes_le (env : Env) (entries : List ZipEntry)
    (ck lk jk : String) :
    (extractAndConvert env entries ck lk jk).writes <+: [ck, lk, jk] := by
  unfold extractAndConvert
  repeat' split
  all_goals first
    | exact ⟨_, rfl⟩
    | exact convertAndPublish_writes_le env ck lk jk

theorem extractAndConvert_success (env : Env) (entries : List ZipEntry)
    (ck lk jk : String)
    (h : (extractAndConvert env entries ck lk jk).outcome = none) :
    (extractAndConvert env entries ck lk jk).writes = [ck, lk, jk] := by
  unfold extractAndConvert at h ⊢
  repeat' split at h
  all_goals simp_all
  all_goals exact convertAndPublish_success env ck lk jk (by assumption)

theorem extractAndConvert_cleanup (env : Env) (entries : List ZipEntry)
    (ck lk jk : String) :
    ((extractAndConvert env entries ck lk jk).removedFiles).Perm
      (extractAndConvert env entries ck lk jk).created ∧
    ((extractAndConvert env entries ck lk jk).closedFiles).Perm
      (extractAndConvert env entries ck lk jk).created := by
  unfold extractAndConvert
  repeat' split
  all_goals constructor
  all_goals first
    | exact List.Perm.refl _
    | exact List.Perm.swap _ _ _

theorem findPrismMdb_eq_none (entries : List ZipEntry)
    (h : ∀ e ∈ entries, e.name ≠ "prism.mdb") : findPrismMdb entries = none := by
  induction entries with
  | nil => rfl
  | cons f rest ih =>
    unfold findPrismMdb
    rw [if_neg (h f (List.mem_cons_self f rest))]
    exact ih fun e he => h e (List.mem_cons_of_mem f he)

theorem prefixCons {a : String} {l1 l2 : List String} (h : l1 <+: l2) :
    a :: l1 <+: a :: l2 := by
  obtain ⟨r, hr⟩ := h
  exact ⟨r, by simp [hr]⟩

instance decWrittenBefore (l : List String) (a b : String) :
    Decidable (writtenBefore l a b) :=
  inferInstanceAs (Decidable (a ∈ l ∧ b ∈ l ∧ l.indexOf a < l.indexOf b))

/-- Claim C8: on every exit path of the run — success, short-circuit, or
failure at any stage — every ephemeral staging file created during the run is
closed and deleted before the run returns. -/
theorem c8_staging_cleanup (env : Env) (store : List String) :
    ((fetchInternal env store).removedFiles).Perm (fetchInternal env store).created ∧
    ((fetchInternal env store).closedFiles).Perm (fetchInternal env store).created := by
  unfold fetchInternal
  dsimp only
  repeat' split
  all_goals first
    | exact ⟨List.Perm.refl _, List.Perm.refl _⟩
    | exact extractAndConvert_cleanup _ _ _ _ _

/-- Claim C10: the database-entry lookup returns the first entry whose full
name is exactly `"prism.mdb"` (it agrees with `List.find?` on that exact
name), and an archive containing only `"PRISM.MDB"` and `"data/prism.mdb"`
yields the not-found result. -/
theorem c10_find_exact (entries : List ZipEntry) :
    findPrismMdb entries = entries.find? (fun f => f.name == "prism.mdb") ∧
    findPrismMdb [⟨"PRISM.MDB"⟩, ⟨"data/prism.mdb"⟩] = none := by
  constructor
  · induction entries with
    | nil => rfl
    | cons f rest ih =>
      by_cases h : f.name = "prism.mdb"
      · simp [findPrismMdb, h]
      · simp [findPrismMdb, h, ih]
  · decide

set_option maxRecDepth 8192 in
/-- Claim C6 (code bug evaluation): when the relational converter (java
mdb-sqlite) exits non-zero with captured output `"corrupt header"`, the run
fails with a conversion error, but the message renders the captured `[]byte`
with `%v` as a decimal byte list, so the text `"corrupt header"` does not
appear in it; only the raw-archive record exists afterward. -/
theorem c6_conversion_message_bug :
    (fetchInternal envJavaCorrupt []).outcome =
      some (.conversionError javaCorruptMsg) ∧
    ¬ ("corrupt header".data <:+: javaCorruptMsg.data) ∧
    ((goFormatBytes envJavaCorrupt.javaResult.output).data <:+: javaCorruptMsg.data) ∧
    (fetchInternal envJavaCorrupt []).writes = ["prism.zip/2030-01-01T00:00:00Z"] := by
  refine ⟨?_, by decide, by decide, ?_⟩ <;> decide

/-- All successful writes of a run are an in-order prefix of the four keys
raw zip, CSV, latest alias, timestamped JSON (shared shape lemma). -/
theorem fetchInternal_writes_le (env : Env) (store : List String)
    (resp : HttpResponse) (t : DateTime)
    (h2 : env.resp = some resp) (h3 : lastModifiedTime resp = some t) :
    (fetchInternal env store).writes <+:
      ["prism.zip/" ++ formatRFC3339 t, "prism.csv/" ++ formatRFC3339 t,
       "prism.json/latest", "prism.json/" ++ formatRFC3339 t] := by
  unfold fetchInternal
  rw [h2]
  dsimp only
  rw [h3]
  dsimp only
  repeat' split
  all_goals first
    | exact ⟨_, rfl⟩
    | exact prefixCons (extractAndConvert_writes_le _ _ _ _ _)

/-- Claim C1: when the blob store already holds the timestamped
structured-output record for the fetched archive's publication timestamp,
the run terminates successfully, runs no converter subprocess, creates no
staging file, never reads the body, and writes nothing to the store. -/
theorem c1_dedup_short_circuit (env : Env) (store : List String)
    (resp : HttpResponse) (t : DateTime)
    (h1 : env.clientOk = true) (h2 : env.resp = some resp)
    (h3 : lastModifiedTime resp = some t) (h4 : env.attrsOk = true)
    (h5 : ("prism.json/" ++ formatRFC3339 t) ∈ store) :
    (fetchInternal env store).outcome = none ∧
    (fetchInternal env store).writes = [] ∧
    (fetchInternal env store).procs = [] ∧
    (fetchInternal env store).created = [] ∧
    (fetchInternal env store).bodyRead = false ∧
    (fetchInternal env store).store = store := by
  simp [fetchInternal, h1, h2, h3, objectExists, h4, h5]

theorem c1_dedup_short_circuit_witness :
    (fetchInternal envFull ["prism.json/" ++ formatRFC3339 ⟨2030, 1, 1, 0, 0, 0⟩]).outcome = none ∧
    (fetchInternal envFull ["prism.json/" ++ formatRFC3339 ⟨2030, 1, 1, 0, 0, 0⟩]).writes = [] ∧
    (fetchInternal envFull ["prism.json/" ++ formatRFC3339 ⟨2030, 1, 1, 0, 0, 0⟩]).procs = [] ∧
    (fetchInternal envFull ["prism.json/" ++ formatRFC3339 ⟨2030, 1, 1, 0, 0, 0⟩]).created = [] ∧
    (fetchInternal envFull ["prism.json/" ++ formatRFC3339 ⟨2030, 1, 1, 0, 0, 0⟩]).bodyRead = false ∧
    (fetchInternal envFull ["prism.json/" ++ formatRFC3339 ⟨2030, 1, 1, 0, 0, 0⟩]).store =
      ["prism.json/" ++ formatRFC3339 ⟨2030, 1, 1, 0, 0, 0⟩] :=
  c1_dedup_short_circuit envFull _ respJan2030 ⟨2030, 1, 1, 0, 0, 0⟩
    rfl rfl (by decide) rfl (by decide)

set_option maxRecDepth 8192 in
/-- Claim C2 counterexample: in the all-success run the latest alias key is
written strictly before the timestamped structured-output key, refuting the
claimed order (timestamped before latest). -/
theorem c2_latest_written_first :
    (fetchInternal envFull []).outcome = none ∧
    (fetchInternal envFull []).writes =
      ["prism.zip/2030-01-01T00:00:00Z", "prism.csv/2030-01-01T00:00:00Z",
       "prism.json/latest", "prism.json/2030-01-01T00:00:00Z"] ∧
    ¬ writtenBefore (fetchInternal envFull []).writes
        "prism.json/2030-01-01T00:00:00Z" "prism.json/latest" ∧
    writtenBefore (fetchInternal envFull []).writes
        "prism.json/latest" "prism.json/2030-01-01T00:00:00Z" := by
  refine ⟨?_, ?_, ?_, ?_⟩ <;> decide

/-- Claim C2 (amended): in every successful run that proceeds past the dedup
check, the write order is raw archive, tabular extract, latest alias, then
the timestamped structured output (the timestamped key is written last, as
the end-to-end completion marker). -/
theorem c2_successful_run_write_order (env : Env) (store : List String)
    (resp : HttpResponse) (t : DateTime)
    (h2 : env.resp = some resp) (h3 : lastModifiedTime resp = some t)
    (hs : (fetchInternal env store).outcome = none) :
    (fetchInternal env store).writes = [] ∨
    (fetchInternal env store).writes =
      ["prism.zip/" ++ formatRFC3339 t, "prism.csv/" ++ formatRFC3339 t,
       "prism.json/latest", "prism.json/" ++ formatRFC3339 t] := by
  revert hs
  unfold fetchInternal
  rw [h2]
  dsimp only
  rw [h3]
  dsimp only
  repeat' split
  all_goals intro hs
  all_goals first
    | (left; rfl)
    | (right
       dsimp only at hs ⊢
       rw [extractAndConvert_success _ _ _ _ _ hs])
    | simp_all

set_option maxRecDepth 8192 in
theorem c2_successful_run_write_order_witness :
    (fetchInternal envFull []).writes = [] ∨
    (fetchInternal envFull []).writes =
      ["prism.zip/" ++ formatRFC3339 ⟨2030, 1, 1, 0, 0, 0⟩,
       "prism.csv/" ++ formatRFC3339 ⟨2030, 1, 1, 0, 0, 0⟩,
       "prism.json/latest", "prism.json/" ++ formatRFC3339 ⟨2030, 1, 1, 0, 0, 0⟩] :=
  c2_successful_run_write_order envFull [] respJan2030 ⟨2030, 1, 1, 0, 0, 0⟩
    rfl (by decide) (by decide)

set_option maxRecDepth 8192 in
/-- Claim C3 counterexample: when only the write of the timestamped
structured-output key fails, the run has written exactly three Publication
Records (raw zip, CSV, latest alias). -/
theorem c3_exactly_three_writes :
    ((fetchInternal envJsonWriteFail []).writes).length = 3 ∧
    (fetchInternal envJsonWriteFail []).outcome =
      some (.writeError "prism.json/2030-01-01T00:00:00Z") := by
  refine ⟨?_, ?_⟩ <;> decide

/-- Claim C3 (amended): the records written by a run are always an in-order
prefix of raw zip, CSV, latest alias, timestamped JSON — so 0, 1, 2, 3 or 4
records, with 3 occurring when the final timestamped write fails. -/
theorem c3_writes_ordered (env : Env) (store : List String)
    (resp : HttpResponse) (t : DateTime)
    (h2 : env.resp = some resp) (h3 : lastModifiedTime resp = some t) :
    (fetchInternal env store).writes <+:
      ["prism.zip/" ++ formatRFC3339 t, "prism.csv/" ++ formatRFC3339 t,
       "prism.json/latest", "prism.json/" ++ formatRFC3339 t] :=
  fetchInternal_writes_le env store resp t h2 h3

theorem c3_writes_ordered_witness :
    (fetchInternal envJsonWriteFail []).writes <+:
      ["prism.zip/" ++ formatRFC3339 ⟨2030, 1, 1, 0, 0, 0⟩,
       "prism.csv/" ++ formatRFC3339 ⟨2030, 1, 1, 0, 0, 0⟩,
       "prism.json/latest", "prism.json/" ++ formatRFC3339 ⟨2030, 1, 1, 0, 0, 0⟩] :=
  c3_writes_ordered envJsonWriteFail [] respJan2030 ⟨2030, 1, 1, 0, 0, 0⟩
    rfl (by decide)

set_option maxRecDepth 8192 in
/-- Claim C4 counterexample: a partial run (converter failure) leaves the
timestamped raw-archive record in the store; a later run of the same version
passes the dedup check and writes that already-existing timestamped key
again. -/
theorem c4_partial_run_rewrites_zip_key :
    (fetchInternal envJavaCorrupt []).store = ["prism.zip/2030-01-01T00:00:00Z"] ∧
    "prism.zip/2030-01-01T00:00:00Z" ∈
      (fetchInternal envFull ["prism.zip/2030-01-01T00:00:00Z"]).writes := by
  refine ⟨?_, ?_⟩ <;> decide

/-- Claim C4 (amended): only the timestamped structured-output record is an
immutable completion marker — once it exists, a later run writes nothing at
all (timestamped raw/tabular records from partial runs may be re-written). -/
theorem c4_json_marker_never_rewritten (env : Env) (store : List String)
    (resp : HttpResponse) (t : DateTime)
    (h2 : env.resp = some resp) (h3 : lastModifiedTime resp = some t)
    (h5 : ("prism.json/" ++ formatRFC3339 t) ∈ store) :
    (fetchInternal env store).writes = [] := by
  cases hc : env.clientOk with
  | false => simp [fetchInternal, hc]
  | true =>
    cases hA : env.attrsOk with
    | false => simp [fetchInternal, hc, h2, h3, objectExists, hA]
    | true => simp [fetchInternal, hc, h2, h3, objectExists, hA, h5]

theorem c4_json_marker_never_rewritten_witness :
    (fetchInternal envFull ["prism.json/" ++ formatRFC3339 ⟨2030, 1, 1, 0, 0, 0⟩]).writes = [] :=
  c4_json_marker_never_rewritten envFull _ respJan2030 ⟨2030, 1, 1, 0, 0, 0⟩
    rfl (by decide) (by decide)

/-- Claim C5: if the fetched archive contains no entry named exactly
`prism.mdb`, the run fails with the not-found error, the only record written
is the timestamped raw-archive audit record, and no converter runs. -/
theorem c5_not_found_only_zip_written (env : Env) (store : List String)
    (resp : HttpResponse) (t : DateTime) (entries : List ZipEntry)
    (h1 : env.clientOk = true) (h2 : env.resp = some resp)
    (h3 : lastModifiedTime resp = some t) (h4 : env.attrsOk = true)
    (h5 : ("prism.json/" ++ formatRFC3339 t) ∉ store)
    (h6 : env.bodyReadOk = true)
    (h7 : writeToGCS env ("prism.zip/" ++ formatRFC3339 t) = true)
    (h8 : env.zipEntries = some entries)
    (h9 : ∀ e ∈ entries, e.name ≠ "prism.mdb") :
    (fetchInternal env store).outcome =
      some (.notFoundError "no prism.mdb found in prism.zip") ∧
    (fetchInternal env store).writes = ["prism.zip/" ++ formatRFC3339 t] ∧
    (fetchInternal env store).procs = [] := by
  have hf : findPrismMdb entries = none := findPrismMdb_eq_none entries h9
  simp [fetchInternal, h1, h2, h3, objectExists, h4, h5, h6, h7, h8,
    extractAndConvert, hf]

theorem c5_not_found_only_zip_written_witness :
    (fetchInternal { envFull with zipEntries := some [⟨"PRISM.MDB"⟩, ⟨"data/prism.mdb"⟩] } []).outcome =
      some (.notFoundError "no prism.mdb found in prism.zip") ∧
    (fetchInternal { envFull with zipEntries := some [⟨"PRISM.MDB"⟩, ⟨"data/prism.mdb"⟩] } []).writes =
      ["prism.zip/" ++ formatRFC3339 ⟨2030, 1, 1, 0, 0, 0⟩] ∧
    (fetchInternal { envFull with zipEntries := some [⟨"PRISM.MDB"⟩, ⟨"data/prism.mdb"⟩] } []).procs = [] :=
  c5_not_found_only_zip_written _ [] respJan2030 ⟨2030, 1, 1, 0, 0, 0⟩
    [⟨"PRISM.MDB"⟩, ⟨"data/prism.mdb"⟩]
    rfl rfl (by decide) rfl (by decide) rfl (by decide) rfl (by decide)

/-- Claim C7: when the `Last-Modified` header is absent, empty or
unparseable, the run fails with the timestamp error before the body is read,
and nothing is written or staged. -/
theorem c7_timestamp_error_before_body (env : Env) (store : List String)
    (resp : HttpResponse)
    (h1 : env.clientOk = true) (h2 : env.resp = some resp)
    (h3 : lastModifiedTime resp = none) :
    (fetchInternal env store).outcome = some (.timestampError resp.lastModified) ∧
    (fetchInternal env store).bodyRead = false ∧
    (fetchInternal env store).writes = [] ∧
    (fetchInternal env store).created = [] := by
  simp [fetchInternal, h1, h2, h3]

theorem c7_timestamp_error_before_body_witness :
    (fetchInternal { envFull with resp := some ⟨"", []⟩ } []).outcome =
      some (.timestampError (HttpResponse.mk "" []).lastModified) ∧
    (fetchInternal { envFull with resp := some ⟨"", []⟩ } []).bodyRead = false ∧
    (fetchInternal { envFull with resp := some ⟨"", []⟩ } []).writes = [] ∧
    (fetchInternal { envFull with resp := some ⟨"", []⟩ } []).created = [] :=
  c7_timestamp_error_before_body _ [] ⟨"", []⟩ rfl rfl (by decide)

/-- Claim C9: every key a run writes is one of the artifact-kind prefixes
followed by `/` and the RFC3339 rendering of the parsed timestamp (plus the
fixed latest alias); and `Last-Modified: Tue, 01 Jan 2030 00:00:00 GMT`
yields the suffix `2030-01-01T00:00:00Z`. -/
theorem c9_key_layout (env : Env) (store : List String)
    (resp : HttpResponse) (t : DateTime)
    (h2 : env.resp = some resp) (h3 : lastModifiedTime resp = some t) :
    (∀ k ∈ (fetchInternal env store).writes,
      k ∈ ["prism.zip/" ++ formatRFC3339 t, "prism.csv/" ++ formatRFC3339 t,
           "prism.json/latest", "prism.json/" ++ formatRFC3339 t]) ∧
    parseHTTPTime "Tue, 01 Jan 2030 00:00:00 GMT" = some ⟨2030, 1, 1, 0, 0, 0⟩ ∧
    formatRFC3339 ⟨2030, 1, 1, 0, 0, 0⟩ = "2030-01-01T00:00:00Z" := by
  refine ⟨fun k hk => ?_, by decide, by decide⟩
  exact (fetchInternal_writes_le env store resp t h2 h3).subset hk

theorem c9_key_layout_witness :
    (∀ k ∈ (fetchInternal envFull []).writes,
      k ∈ ["prism.zip/" ++ formatRFC3339 ⟨2030, 1, 1, 0, 0, 0⟩,
           "prism.csv/" ++ formatRFC3339 ⟨2030, 1, 1, 0, 0, 0⟩,
           "prism.json/latest", "prism.json/" ++ formatRFC3339 ⟨2030, 1, 1, 0, 0, 0⟩]) ∧
    parseHTTPTime "Tue, 01 Jan 2030 00:00:00 GMT" = some ⟨2030, 1, 1, 0, 0, 0⟩ ∧
    formatRFC3339 ⟨2030, 1, 1, 0, 0, 0⟩ = "2030-01-01T00:00:00Z" :=
  c9_key_layout envFull [] respJan2030 ⟨2030, 1, 1, 0, 0, 0⟩ rfl (by decide)
